import Mathlib

/-!
Shallow embedding of src/zonedata-download/download.py (class CZDSDownloader).

The embedding models the parts of the downloader that the specification talks
about: the retry loops around the zone-list GET (get_zonefiles_list) and the
per-zone GET (fetch_zone), the header validation performed by fetch_zone, the
per-zone loop with its write phase in fetch, the authentication branches of
czds_authenticate, and the final summary line printed by main.

Modelling conventions:

* The HTTP transport is an oracle: each call of get_with_token consumes one
  answer, indexed by the attempt number within the surrounding retry loop.
  An answer is either a transport-level exception or a response with a status
  code; get_with_token turns every exception and every non-200 status into a
  GetError, which from the point of view of its callers is a failure with no observable detail
  (modelled as Option.none).
* The shared mutable attribute self.retries is threaded explicitly.  The two
  while loops run on a fuel argument that equals maxRetries + 1 - retries at
  entry; the loop condition retries <= maxRetries is still tested on every
  round exactly as in the source, and the fuel matches the number of rounds
  the source loop can execute because retries grows by one per repeated round.
* The file system is an association list from path to byte content; opening a
  file for writing truncates it, and the per-chunk flush of the source means
  that a stream dying after d delivered bytes leaves exactly the first d bytes
  of the payload in the file.  A response therefore carries its full payload
  together with an optional truncation point.
* send_msg calls are recorded in a message list (with the FAILURE/SUCCESS
  subject flag); relevant logging.error / logging.info lines are recorded in a
  log list.  sys.exit(1) and an exception that no handler catches are the two
  abnormal terminations of a run.
-/

namespace CZDS

/-- A message produced by send_msg: the flag records whether the subject line
is the FAILURE one (fail = true, the default of send_msg) or the SUCCESS one. -/
structure Msg where
  fail : Bool
  text : String
deriving DecidableEq

/-- The observable state of a run: the mutable counters of CZDSDownloader
(retries, downloaded_zones, downloadable_zones), the modelled file system,
the messages sent so far, the recorded log lines, and a counter of how many
times a zone file was opened for writing. -/
structure St where
  retries : Nat
  downloaded_zones : Nat
  downloadable_zones : Nat
  fs : List (String × List Nat)
  msgs : List Msg
  logs : List String
  writes : Nat
deriving DecidableEq

/-- Look a path up in the modelled file system. -/
def fsGet (fs : List (String × List Nat)) (k : String) : Option (List Nat) :=
  (List.find? (fun p => p.1 == k) fs).map (fun p => p.2)

/-- Model of open(k, wb) followed by writing v: the file at k is created or
truncated and afterwards holds exactly v. -/
def fsSet (fs : List (String × List Nat)) (k : String) (v : List Nat) :
    List (String × List Nat) :=
  (k, v) :: List.filter (fun p => p.1 != k) fs

/-- Lower-casing of a string, used to model the case-insensitive header
dictionary of the requests library. -/
def lowerStr (s : String) : String :=
  String.mk (s.toList.map Char.toLower)

/-- Header lookup with case-insensitive keys, as the requests library does. -/
def headerLookup (hs : List (String × String)) (k : String) : Option String :=
  (List.find? (fun p => lowerStr p.1 == lowerStr k) hs).map (fun p => p.2)

/-- A streamed 200 response for a zone GET: its headers, the full payload the
server would deliver, and an optional truncation point.  truncatedAfter = none
means the stream completes; truncatedAfter = some d means the stream raises an
exception after d bytes have been delivered (and, because the source flushes
after every chunk, written). -/
structure ZoneResp where
  headers : List (String × String)
  body : List Nat
  truncatedAfter : Option Nat
deriving DecidableEq

/-- One transport answer for a zone GET: a transport-level exception, or a
response with a status code. -/
inductive ZoneAnswer
  | exn : ZoneAnswer
  | resp : Nat → ZoneResp → ZoneAnswer
deriving DecidableEq

/-- get_with_token as its callers observe it for a zone GET: any exception and
any non-200 status raises GetError (none); a 200 yields the response. -/
def getWithTokenZone : ZoneAnswer → Option ZoneResp
  | ZoneAnswer.exn => none
  | ZoneAnswer.resp status r => if status = 200 then some r else none

/-- The possible exits of the while loop of fetch_zone.  loopExit is the fall
through of the while condition (the function then returns None); exhausted,
noContentType and badContentType are the three CZDSError raises; ok is the
return of the streamed response.  Every constructor carries the value of the
shared retry counter at that point. -/
inductive ZoneOutcome
  | loopExit : ZoneOutcome
  | ok : ZoneResp → Nat → ZoneOutcome
  | exhausted : Nat → ZoneOutcome
  | noContentType : Nat → ZoneOutcome
  | badContentType : String → Nat → ZoneOutcome
deriving DecidableEq

/-- True exactly for the outcomes of fetch_zone that raise CZDSError, the
exception type the per-zone loop of fetch catches. -/
def ZoneOutcome.isFetchError : ZoneOutcome → Bool
  | ZoneOutcome.exhausted _ => true
  | ZoneOutcome.noContentType _ => true
  | ZoneOutcome.badContentType _ _ => true
  | _ => false

/-- The retry counter carried by an outcome, with a default for loopExit
(where the source leaves self.retries untouched). -/
def ZoneOutcome.retriesOut (dflt : Nat) : ZoneOutcome → Nat
  | ZoneOutcome.loopExit => dflt
  | ZoneOutcome.ok _ r => r
  | ZoneOutcome.exhausted r => r
  | ZoneOutcome.noContentType r => r
  | ZoneOutcome.badContentType _ r => r

/-- The while loop of fetch_zone.  The fuel argument equals
maxRetries + 1 - retries at every call, which is exactly the number of rounds
the loop can still run, because the retry counter grows by one on every
repeated round; the loop condition retries <= maxRetries is re-tested each
round as in the source.  On a GetError the loop either raises CZDSError when
retries = maxRetries or increments the shared counter and retries; on a 200
response it checks only the Content-Type header: absence raises CZDSError,
a value different from application/x-gzip raises CZDSError, and otherwise the
response is returned. -/
def fetchZoneGo (maxRetries : Nat) (tr : Nat → ZoneAnswer) :
    Nat → Nat → Nat → ZoneOutcome
  | 0, _, _ => ZoneOutcome.loopExit
  | fuel + 1, attempt, retries =>
    if retries ≤ maxRetries then
      match getWithTokenZone (tr attempt) with
      | none =>
        if retries = maxRetries then ZoneOutcome.exhausted retries
        else fetchZoneGo maxRetries tr fuel (attempt + 1) (retries + 1)
      | some resp =>
        match headerLookup resp.headers "Content-Type" with
        | none => ZoneOutcome.noContentType retries
        | some ct =>
          if ct = "application/x-gzip" then ZoneOutcome.ok resp retries
          else ZoneOutcome.badContentType ct retries
    else ZoneOutcome.loopExit

/-- CZDSDownloader.fetch_zone, entered with the current value of the shared
retry counter. -/
def fetch_zone (maxRetries : Nat) (tr : Nat → ZoneAnswer) (retries : Nat) :
    ZoneOutcome :=
  fetchZoneGo maxRetries tr (maxRetries + 1 - retries) 0 retries

/-- The body of the zone-list response as the source observes it:
notJson models a body on which response.json() raises a JSON decode error
(that call sits inside a try block that catches only GetError, so the decode
error escapes); jsonNonList models a JSON value on which list(...) raises
(caught and re-raised as CZDSError); jsonList is a well-formed JSON array of
strings. -/
inductive ListBody
  | notJson : ListBody
  | jsonNonList : ListBody
  | jsonList : List String → ListBody
deriving DecidableEq

/-- One transport answer for the zone-list GET. -/
inductive ListAnswer
  | exn : ListAnswer
  | resp : Nat → ListBody → ListAnswer
deriving DecidableEq

/-- get_with_token as observed for the list GET. -/
def getWithTokenList : ListAnswer → Option ListBody
  | ListAnswer.exn => none
  | ListAnswer.resp status b => if status = 200 then some b else none

/-- The possible exits of get_zonefiles_list: fall through of the while
condition, success (carrying the deduplicated list, whether duplicates were
found, and the retry counter), the CZDSError raises for exhausted retries and
for a non-iterable JSON value, and the uncaught JSON decode error. -/
inductive ListOutcome
  | loopExit : ListOutcome
  | ok : List String → Bool → Nat → ListOutcome
  | exhausted : Nat → ListOutcome
  | parseError : Nat → ListOutcome
  | jsonError : Nat → ListOutcome
deriving DecidableEq

/-- The retry counter carried by a list outcome, with a default for
loopExit. -/
def ListOutcome.retriesOut (dflt : Nat) : ListOutcome → Nat
  | ListOutcome.loopExit => dflt
  | ListOutcome.ok _ _ r => r
  | ListOutcome.exhausted r => r
  | ListOutcome.parseError r => r
  | ListOutcome.jsonError r => r

/-- The while loop of get_zonefiles_list; fuel discipline as in fetchZoneGo.
On success the source computes list(set(response)), modelled by List.dedup
(the specification treats the result as a set, so only its underlying set and
its length are meaningful), and flags duplicate entries when the deduplicated
length differs from the raw length. -/
def listGo (maxRetries : Nat) (tr : Nat → ListAnswer) :
    Nat → Nat → Nat → ListOutcome
  | 0, _, _ => ListOutcome.loopExit
  | fuel + 1, attempt, retries =>
    if retries ≤ maxRetries then
      match getWithTokenList (tr attempt) with
      | none =>
        if retries = maxRetries then ListOutcome.exhausted retries
        else listGo maxRetries tr fuel (attempt + 1) (retries + 1)
      | some body =>
        match body with
        | ListBody.notJson => ListOutcome.jsonError retries
        | ListBody.jsonNonList => ListOutcome.parseError retries
        | ListBody.jsonList l =>
          ListOutcome.ok l.dedup (l.dedup.length != l.length) retries
    else ListOutcome.loopExit

/-- CZDSDownloader.get_zonefiles_list, entered with the current value of the
shared retry counter. -/
def get_zonefiles_list (maxRetries : Nat) (tr : Nat → ListAnswer)
    (retries : Nat) : ListOutcome :=
  listGo maxRetries tr (maxRetries + 1 - retries) 0 retries

/-- The zones configuration item: the string all, or an explicit collection of
zone names. -/
inductive WhichZones
  | all : WhichZones
  | names : List String → WhichZones
deriving DecidableEq

/-- The configuration items the modelled core reads. -/
structure Config where
  maxRetries : Nat
  directory : String
  whichZones : WhichZones
deriving DecidableEq

/-- The test guarding the body of the per-zone loop in fetch. -/
def zoneSelected : WhichZones → String → Bool
  | WhichZones.all, _ => true
  | WhichZones.names l, zn => l.contains zn

/-- The last slash-separated segment of a zone URL, as computed by splitting
on the slash and taking the final element. -/
def zoneNameOf (zone : String) : String :=
  String.mk (zone.toList.foldl (fun acc c => if c = '/' then [] else acc ++ [c]) [])

/-- The output path used by fetch for a zone name. -/
def outPath (cfg : Config) (zn : String) : String :=
  cfg.directory ++ "/" ++ zn ++ ".gz"

/-- How a run (or a phase of it) terminates: normal return, sys.exit(1), or an
exception that no handler catches. -/
inductive Termination
  | normal : Termination
  | exit1 : Termination
  | uncaught : Termination
deriving DecidableEq

/-- The result of one iteration of the per-zone loop: continue with the next
zone, or terminate the run. -/
inductive StepResult
  | cont : St → StepResult
  | fatal : St → Termination → StepResult
deriving DecidableEq

/-- The state carried by a step result. -/
def StepResult.stateOf : StepResult → St
  | StepResult.cont st => st
  | StepResult.fatal st _ => st

/-- The send_msg text of fetch_zone when the retry ceiling is reached. -/
def maxRetriesMsg (zn : String) : Msg :=
  ⟨true, "Maximum number of retries reached while trying to obtain zonefiles. Last zone attempted and failed: " ++ zn⟩

/-- The send_msg text of fetch_zone when the response has no Content-Type. -/
def noContentTypeMsg (zone : String) : Msg :=
  ⟨true, "GET for " ++ zone ++ " did not return a content type in the header"⟩

/-- The send_msg text of fetch_zone on an unsupported Content-Type. -/
def badContentTypeMsg (ct zone : String) : Msg :=
  ⟨true, "Unsupported content type " ++ ct ++ " for " ++ zone⟩

/-- The send_msg text of fetch when writing a zone file fails. -/
def writeFailMsg (zn : String) : Msg :=
  ⟨true, "Failed to write zone " ++ zn ++ " to file"⟩

/-- The send_msg text of fetch when get_zonefiles_list raises CZDSError. -/
def listFailMsg : Msg :=
  ⟨true, "Unrecoverable error: could not obtain zonefiles list"⟩

/-- The send_msg text of get_zonefiles_list on duplicate list entries. -/
def dupMsg : Msg :=
  ⟨true, "Duplicate entries in zonefile list."⟩

/-- The state update shared by the three caught fetch_zone failures: the
message sent inside fetch_zone before the raise, plus the log line written by
the handler in fetch. -/
def errorStep (st : St) (m : Msg) (r : Nat) : St :=
  { st with retries := r,
            msgs := st.msgs ++ [m],
            logs := st.logs ++ ["Failed to download zone"] }

/-- The state update of a completed write: open the file at the final path
(the only path the source ever writes to), stream the whole payload, count
the write. -/
def writeStep (cfg : Config) (st : St) (zn : String) (body : List Nat)
    (r : Nat) : St :=
  { st with retries := r,
            fs := fsSet st.fs (outPath cfg zn) body,
            writes := st.writes + 1,
            logs := st.logs ++ ["Downloading to " ++ outPath cfg zn] }

/-- The state update of a write whose stream dies after d bytes: the flushed
flushed leading bytes are left at the final path, the failure message of fetch is sent. -/
def writeFailStep (cfg : Config) (st : St) (zn : String) (body : List Nat)
    (d r : Nat) : St :=
  { st with retries := r,
            fs := fsSet st.fs (outPath cfg zn) (List.take d body),
            writes := st.writes + 1,
            msgs := st.msgs ++ [writeFailMsg zn],
            logs := st.logs ++ ["fatal error"] }

/-- One iteration of the per-zone loop of fetch for a selected zone: call
fetch_zone; catch CZDSError (log and continue); on a returned response open
the output file at the final path (there is no temporary path in the source)
and stream the body into it, flushing each chunk; a stream that dies after d
bytes leaves the first d bytes in the file, sends a failure message and exits
the process with status 1.  A fall through of the retry loop would make fetch
dereference None, an uncaught exception. -/
def processZone (cfg : Config) (tr : Nat → ZoneAnswer) (zone : String)
    (st : St) : StepResult :=
  match fetch_zone cfg.maxRetries tr st.retries with
  | ZoneOutcome.exhausted r =>
    StepResult.cont (errorStep st (maxRetriesMsg (zoneNameOf zone)) r)
  | ZoneOutcome.noContentType r =>
    StepResult.cont (errorStep st (noContentTypeMsg zone) r)
  | ZoneOutcome.badContentType ct r =>
    StepResult.cont (errorStep st (badContentTypeMsg ct zone) r)
  | ZoneOutcome.loopExit => StepResult.fatal st Termination.uncaught
  | ZoneOutcome.ok resp r =>
    match resp.truncatedAfter with
    | none =>
      StepResult.cont (writeStep cfg st (zoneNameOf zone) resp.body r)
    | some d =>
      StepResult.fatal (writeFailStep cfg st (zoneNameOf zone) resp.body d r)
        Termination.exit1

/-- The per-zone loop of fetch over the deduplicated zone list. -/
def zoneLoop (cfg : Config) (ztr : String → Nat → ZoneAnswer) :
    List String → St → St × Termination
  | [], st => (st, Termination.normal)
  | zone :: rest, st =>
    if zoneSelected cfg.whichZones (zoneNameOf zone) = true then
      match processZone cfg (ztr zone) zone st with
      | StepResult.cont st1 => zoneLoop cfg ztr rest st1
      | StepResult.fatal st1 t => (st1, t)
    else
      zoneLoop cfg ztr rest st

/-- CZDSDownloader.fetch: obtain the zone list (a CZDSError is caught, a
failure message is sent and the process exits with status 1; the uncaught
JSON decode error and the None fall through propagate), record
downloadable_zones and the duplicate warning, then run the per-zone loop. -/
def fetch (cfg : Config) (ltr : Nat → ListAnswer)
    (ztr : String → Nat → ZoneAnswer) (st : St) : St × Termination :=
  match get_zonefiles_list cfg.maxRetries ltr st.retries with
  | ListOutcome.exhausted r =>
    ({ st with retries := r, msgs := st.msgs ++ [listFailMsg] }, Termination.exit1)
  | ListOutcome.parseError r =>
    ({ st with retries := r, msgs := st.msgs ++ [listFailMsg] }, Termination.exit1)
  | ListOutcome.jsonError r => ({ st with retries := r }, Termination.uncaught)
  | ListOutcome.loopExit => (st, Termination.uncaught)
  | ListOutcome.ok distinct hadDups r =>
    zoneLoop cfg ztr distinct
      { st with retries := r,
                downloadable_zones := distinct.length,
                msgs := if hadDups then st.msgs ++ [dupMsg] else st.msgs }

/-- One transport answer for the authentication POST: an exception, or a
response with a status code and, for a 200, the access token extracted from
the JSON body (none models a 200 body on which the token extraction raises;
that exception is caught by the handler of czds_authenticate). -/
inductive AuthAnswer
  | exn : AuthAnswer
  | resp : Nat → Option String → AuthAnswer
deriving DecidableEq

/-- The send_msg text of czds_authenticate on a caught exception. -/
def authFailMsg : Msg := ⟨true, "Failed to POST to the authentication URL"⟩

/-- The send_msg text of czds_authenticate on a 404. -/
def auth404Msg : Msg := ⟨true, "Invalid URL, returns a 404"⟩

/-- The send_msg text of czds_authenticate on a 401. -/
def auth401Msg : Msg := ⟨true, "Authentication to CZDS failed with 401, not authorized"⟩

/-- The send_msg text of czds_authenticate on a 500. -/
def auth500Msg : Msg := ⟨true, "CZDS server returned a 500 Internal Server Error for the POST"⟩

/-- The send_msg text of czds_authenticate on any other status. -/
def authOtherMsg (code : Nat) : Msg :=
  ⟨true, "CZDS returned " ++ toString code ++ " for the POST"⟩

/-- CZDSDownloader.czds_authenticate: a 200 with a readable token succeeds;
every other path sends a failure message and exits with status 1. -/
def czds_authenticate (a : AuthAnswer) (st : St) :
    Option String × St × Termination :=
  match a with
  | AuthAnswer.exn =>
    (none, { st with msgs := st.msgs ++ [authFailMsg] }, Termination.exit1)
  | AuthAnswer.resp status body =>
    if status = 200 then
      match body with
      | some tok => (some tok, st, Termination.normal)
      | none =>
        (none, { st with msgs := st.msgs ++ [authFailMsg] }, Termination.exit1)
    else if status = 404 then
      (none, { st with msgs := st.msgs ++ [auth404Msg] }, Termination.exit1)
    else if status = 401 then
      (none, { st with msgs := st.msgs ++ [auth401Msg] }, Termination.exit1)
    else if status = 500 then
      (none, { st with msgs := st.msgs ++ [auth500Msg] }, Termination.exit1)
    else
      (none, { st with msgs := st.msgs ++ [authOtherMsg status] }, Termination.exit1)

/-- The summary line emitted by main after fetch returns. -/
def mainSummary (st : St) : String :=
  "Downloaded " ++ toString st.downloaded_zones ++ " zonefiles of " ++
    toString st.downloadable_zones ++ "."

/-- The number of failure messages in a message list. -/
def failCountL (l : List Msg) : Nat :=
  (List.filter (fun m => m.fail) l).length

/-- The number of failure messages sent so far in a state. -/
def failCount (st : St) : Nat := failCountL st.msgs

/-- The membership test of get_config_item on the configuration object: the
source runs the Python expression of item membership in self.config, which
raises TypeError while the configuration is still unloaded (self.config is
initialised to None and only replaced once load_config succeeds); on a
loaded configuration it is an ordinary key lookup. -/
def get_config_item_contains (config : Option (List (String × String)))
    (item : String) : Except Unit Bool :=
  match config with
  | none => Except.error ()
  | some cfg => Except.ok (cfg.any (fun p => p.1 == item))

/-- The send_msg text of load_config on a failed configuration read. -/
def loadConfigFailMsg : Msg := ⟨true, "Failed to load configuration"⟩

/-- The except branch of load_config: it calls send_msg while self.config is
still None, and the first statement of send_msg, get_config_item of the smtp
username, tests membership on None and raises TypeError.  That exception is
caught by nothing, so the handler dies before the stderr write of send_msg
and before the sys.exit(1) of load_config: the run terminates uncaught and
no notification of any kind is produced.  (Were the lookup to succeed, the
message would be sent and the exit would be status 1, as the second branch
records.) -/
def load_config_failure (st : St) : St × Termination :=
  match get_config_item_contains none "smtp.username" with
  | Except.error _ => (st, Termination.uncaught)
  | Except.ok _ =>
    ({ st with msgs := st.msgs ++ [loadConfigFailMsg] }, Termination.exit1)

/-- Claim C4 as stated: every invocation of the per-zone fetch against an
always-throwing transport is retried exactly maxRetries times, independently
of how many retries earlier operations of the same run already consumed.
Because the loop raises with the shared counter at maxRetries, the number of
retries performed by an invocation entered at counter value r0 is
maxRetries - r0, so the claim demands maxRetries - r0 = maxRetries for every
admissible r0. -/
def C4ClaimStatement : Prop :=
  ∀ (maxRetries r0 : Nat) (tr : Nat → ZoneAnswer),
    r0 ≤ maxRetries → (∀ n, tr n = ZoneAnswer.exn) →
    fetch_zone maxRetries tr r0 = ZoneOutcome.exhausted maxRetries ∧
    maxRetries - r0 = maxRetries

/-- The empty starting state of a run (counters zero, no files, no messages). -/
def st0 : St := ⟨0, 0, 0, [], [], [], 0⟩

/-- The expected archive content type header. -/
def gzHdr : List (String × String) := [("Content-Type", "application/x-gzip")]

/-- Scenario A: one zone whose stream dies after two of four bytes. -/
def cfgA : Config := ⟨0, "out", WhichZones.all⟩

/-- Scenario A list transport: one zone link. -/
def ltrA : Nat → ListAnswer :=
  fun _ => ListAnswer.resp 200 (ListBody.jsonList ["u/z"])

/-- Scenario A zone response: payload of four bytes, truncated after two. -/
def respTrunc : ZoneResp := ⟨gzHdr, [1, 2, 3, 4], some 2⟩

/-- Scenario A zone transport. -/
def ztrA : String → Nat → ZoneAnswer := fun _ _ => ZoneAnswer.resp 200 respTrunc

/-- Scenario B: one zone downloading cleanly, used for the re-run scenario. -/
def cfgB : Config := ⟨1, "out", WhichZones.all⟩

/-- Scenario B zone response: a one-byte payload, complete. -/
def respOne : ZoneResp := ⟨gzHdr, [9], none⟩

/-- Scenario B list transport. -/
def ltrB : Nat → ListAnswer :=
  fun _ => ListAnswer.resp 200 (ListBody.jsonList ["u/z"])

/-- Scenario B zone transport. -/
def ztrB : String → Nat → ZoneAnswer := fun _ _ => ZoneAnswer.resp 200 respOne

/-- Scenario E list transport: two zones, both of which download cleanly. -/
def ltrE : Nat → ListAnswer :=
  fun _ => ListAnswer.resp 200 (ListBody.jsonList ["u/z1", "u/z2"])

/-- Scenario E zone transport: distinct payloads for the two zones. -/
def ztrE : String → Nat → ZoneAnswer := fun zone _ =>
  if zone = "u/z1" then ZoneAnswer.resp 200 ⟨gzHdr, [1], none⟩
  else ZoneAnswer.resp 200 ⟨gzHdr, [2], none⟩

/-- Scenario C headers: correct Content-Type, a content disposition that does
not match the documented filename pattern, and no Content-Length at all. -/
def hdrsC : List (String × String) :=
  [("Content-Type", "application/x-gzip"),
   ("Content-Disposition", "not-the-documented-pattern")]

/-- Scenario C zone response. -/
def respC : ZoneResp := ⟨hdrsC, [7], none⟩

/-- Scenario C zone transport. -/
def trC : Nat → ZoneAnswer := fun _ => ZoneAnswer.resp 200 respC

/-- Scenario C configuration. -/
def cfgC : Config := ⟨2, "out", WhichZones.all⟩

/-- Scenario D list transport: a 200 whose body is not valid JSON. -/
def ltrD : Nat → ListAnswer := fun _ => ListAnswer.resp 200 ListBody.notJson

/-- Scenario D zone transport (never reached). -/
def ztrD : String → Nat → ZoneAnswer := fun _ _ => ZoneAnswer.exn

/-- Scenario W zone response for the retry-budget boundary. -/
def respW : ZoneResp := ⟨gzHdr, [5], none⟩

/-- Scenario W zone transport: one transport failure, then a clean 200. -/
def trW : Nat → ZoneAnswer := fun n =>
  if n < 1 then ZoneAnswer.exn else ZoneAnswer.resp 200 respW

/-- An always-throwing zone transport. -/
def exnZ : Nat → ZoneAnswer := fun _ => ZoneAnswer.exn

/-- An always-throwing list transport. -/
def exnL : Nat → ListAnswer := fun _ => ListAnswer.exn

/-- The deduplication example of the specification. -/
def dedupExample : List String := ["a/1", "a/1", "b/2"]

/-- Writing a file makes it readable with exactly the written content. -/
theorem fsGet_fsSet (fs : List (String × List Nat)) (k : String) (v : List Nat) :
    fsGet (fsSet fs k v) k = some v := by
  simp [fsGet, fsSet, List.find?]

/-- Against an always-throwing transport the fetch_zone loop raises the
retries-exhausted CZDSError with the shared counter at maxRetries. -/
theorem fetchZoneGo_exn (maxRetries : Nat) (tr : Nat → ZoneAnswer)
    (h : ∀ n, tr n = ZoneAnswer.exn) :
    ∀ (fuel attempt retries : Nat),
      fuel = maxRetries + 1 - retries → retries ≤ maxRetries →
      fetchZoneGo maxRetries tr fuel attempt retries =
        ZoneOutcome.exhausted maxRetries := by
  intro fuel
  induction fuel with
  | zero => intro attempt retries hf hr; omega
  | succ n ih =>
    intro attempt retries hf hr
    by_cases hm : retries = maxRetries
    · subst hm
      simp [fetchZoneGo, h attempt, getWithTokenZone, hr]
    · have h1 : retries + 1 ≤ maxRetries := by omega
      have h2 : n = maxRetries + 1 - (retries + 1) := by omega
      simp only [fetchZoneGo, h attempt, getWithTokenZone, if_pos hr, if_neg hm]
      exact ih (attempt + 1) (retries + 1) h2 h1

/-- Against an always-throwing transport the get_zonefiles_list loop raises
the retries-exhausted CZDSError with the shared counter at maxRetries. -/
theorem listGo_exn (maxRetries : Nat) (tr : Nat → ListAnswer)
    (h : ∀ n, tr n = ListAnswer.exn) :
    ∀ (fuel attempt retries : Nat),
      fuel = maxRetries + 1 - retries → retries ≤ maxRetries →
      listGo maxRetries tr fuel attempt retries =
        ListOutcome.exhausted maxRetries := by
  intro fuel
  induction fuel with
  | zero => intro attempt retries hf hr; omega
  | succ n ih =>
    intro attempt retries hf hr
    by_cases hm : retries = maxRetries
    · subst hm
      simp [listGo, h attempt, getWithTokenList, hr]
    · have h1 : retries + 1 ≤ maxRetries := by omega
      have h2 : n = maxRetries + 1 - (retries + 1) := by omega
      simp only [listGo, h attempt, getWithTokenList, if_pos hr, if_neg hm]
      exact ih (attempt + 1) (retries + 1) h2 h1

/-- A transport that throws on the first m attempts and then delivers a 200
with the expected content type makes the fetch_zone loop succeed after m
retry increments, provided the shared counter can absorb them. -/
theorem fetchZoneGo_after (maxRetries : Nat) (tr : Nat → ZoneAnswer)
    (resp : ZoneResp)
    (hct : headerLookup resp.headers "Content-Type" = some "application/x-gzip") :
    ∀ (m attempt retries : Nat), retries + m ≤ maxRetries →
      (∀ n, n < m → tr (attempt + n) = ZoneAnswer.exn) →
      tr (attempt + m) = ZoneAnswer.resp 200 resp →
      fetchZoneGo maxRetries tr (maxRetries + 1 - retries) attempt retries =
        ZoneOutcome.ok resp (retries + m) := by
  intro m
  induction m with
  | zero =>
    intro attempt retries hm hf hs
    have hr : retries ≤ maxRetries := by omega
    obtain ⟨k, hk⟩ : ∃ k, maxRetries + 1 - retries = k + 1 :=
      ⟨maxRetries - retries, by omega⟩
    rw [hk]
    have hs0 : tr attempt = ZoneAnswer.resp 200 resp := by simpa using hs
    simp [fetchZoneGo, hr, hs0, getWithTokenZone, hct]
  | succ mm ih =>
    intro attempt retries hm hf hs
    have hr : retries ≤ maxRetries := by omega
    have hne : ¬ retries = maxRetries := by omega
    obtain ⟨k, hk⟩ : ∃ k, maxRetries + 1 - retries = k + 1 :=
      ⟨maxRetries - retries, by omega⟩
    rw [hk]
    have h0 : tr attempt = ZoneAnswer.exn := by
      simpa using hf 0 (Nat.succ_pos mm)
    have hrec := ih (attempt + 1) (retries + 1) (by omega)
      (fun n hn => by
        have hx := hf (n + 1) (Nat.succ_lt_succ hn)
        have e : attempt + (n + 1) = attempt + 1 + n := by omega
        rwa [e] at hx)
      (by
        have hx := hs
        have e : attempt + (mm + 1) = attempt + 1 + mm := by omega
        rwa [e] at hx)
    have hk2 : maxRetries + 1 - (retries + 1) = k := by omega
    rw [hk2] at hrec
    have he : retries + 1 + mm = retries + (mm + 1) := by omega
    rw [he] at hrec
    simp only [fetchZoneGo, h0, getWithTokenZone, if_pos hr, if_neg hne]
    exact hrec

/-- The fetch_zone loop never decreases the shared retry counter: every value
the counter can carry at an exit of the loop is at least any lower bound of
the entry value. -/
theorem fetchZoneGo_retries (maxRetries : Nat) (tr : Nat → ZoneAnswer) :
    ∀ (fuel attempt retries d : Nat), d ≤ retries →
      d ≤ (fetchZoneGo maxRetries tr fuel attempt retries).retriesOut d := by
  intro fuel
  induction fuel with
  | zero => intro a r d hd; simp [fetchZoneGo, ZoneOutcome.retriesOut]
  | succ n ih =>
    intro a r d hd
    simp only [fetchZoneGo]
    split
    · cases hA : getWithTokenZone (tr a) with
      | none =>
        by_cases hm : r = maxRetries
        · simp [hm, ZoneOutcome.retriesOut]
          omega
        · simp only [if_neg hm]
          exact ih (a + 1) (r + 1) d (by omega)
      | some resp =>
        cases hL : headerLookup resp.headers "Content-Type" with
        | none => simp [hL, ZoneOutcome.retriesOut, hd]
        | some ct =>
          by_cases hc : ct = "application/x-gzip" <;>
            simp [hL, hc, ZoneOutcome.retriesOut, hd]
    · simp [ZoneOutcome.retriesOut]

/-- The get_zonefiles_list loop never decreases the shared retry counter. -/
theorem listGo_retries (maxRetries : Nat) (tr : Nat → ListAnswer) :
    ∀ (fuel attempt retries d : Nat), d ≤ retries →
      d ≤ (listGo maxRetries tr fuel attempt retries).retriesOut d := by
  intro fuel
  induction fuel with
  | zero => intro a r d hd; simp [listGo, ListOutcome.retriesOut]
  | succ n ih =>
    intro a r d hd
    simp only [listGo]
    split
    · cases hA : getWithTokenList (tr a) with
      | none =>
        by_cases hm : r = maxRetries
        · simp [hm, ListOutcome.retriesOut]
          omega
        · simp only [if_neg hm]
          exact ih (a + 1) (r + 1) d (by omega)
      | some body =>
        cases body <;> simp [ListOutcome.retriesOut, hd]
    · simp [ListOutcome.retriesOut]

/-- One iteration of the per-zone loop never decreases the shared retry
counter. -/
theorem processZone_retries (cfg : Config) (tr : Nat → ZoneAnswer)
    (zone : String) (st : St) :
    st.retries ≤ (processZone cfg tr zone st).stateOf.retries := by
  have h := fetchZoneGo_retries cfg.maxRetries tr
    (cfg.maxRetries + 1 - st.retries) 0 st.retries st.retries (le_refl _)
  have h2 : st.retries ≤
      (fetch_zone cfg.maxRetries tr st.retries).retriesOut st.retries := h
  rcases hO : fetch_zone cfg.maxRetries tr st.retries with _ | ⟨resp, r⟩ | r | r | ⟨ct, r⟩
  · simp [processZone, hO, StepResult.stateOf]
  · rw [hO] at h2
    simp only [ZoneOutcome.retriesOut] at h2
    cases hT : resp.truncatedAfter <;>
      simp [processZone, hO, hT, StepResult.stateOf, writeStep, writeFailStep, h2]
  · rw [hO] at h2
    simp only [ZoneOutcome.retriesOut] at h2
    simp [processZone, hO, StepResult.stateOf, errorStep, h2]
  · rw [hO] at h2
    simp only [ZoneOutcome.retriesOut] at h2
    simp [processZone, hO, StepResult.stateOf, errorStep, h2]
  · rw [hO] at h2
    simp only [ZoneOutcome.retriesOut] at h2
    simp [processZone, hO, StepResult.stateOf, errorStep, h2]

/-- The per-zone loop never decreases the shared retry counter. -/
theorem zoneLoop_retries (cfg : Config) (ztr : String → Nat → ZoneAnswer) :
    ∀ (zs : List String) (st : St),
      st.retries ≤ (zoneLoop cfg ztr zs st).1.retries := by
  intro zs
  induction zs with
  | nil => intro st; simp [zoneLoop]
  | cons z rest ih =>
    intro st
    simp only [zoneLoop]
    by_cases hsel : zoneSelected cfg.whichZones (zoneNameOf z) = true
    · rw [if_pos hsel]
      have hP := processZone_retries cfg (ztr z) z st
      cases hQ : processZone cfg (ztr z) z st with
      | cont s1 =>
        rw [hQ] at hP
        exact le_trans hP (ih s1)
      | fatal s1 t =>
        rw [hQ] at hP
        simpa [StepResult.stateOf] using hP
    · rw [if_neg hsel]
      exact ih st

/-- A whole run of fetch never decreases the shared retry counter: the retry
budget consumed anywhere in a run stays consumed. -/
theorem fetch_retries (cfg : Config) (ltr : Nat → ListAnswer)
    (ztr : String → Nat → ZoneAnswer) (st : St) :
    st.retries ≤ (fetch cfg ltr ztr st).1.retries := by
  have h := listGo_retries cfg.maxRetries ltr
    (cfg.maxRetries + 1 - st.retries) 0 st.retries st.retries (le_refl _)
  have h2 : st.retries ≤
      (get_zonefiles_list cfg.maxRetries ltr st.retries).retriesOut st.retries := h
  rcases hO : get_zonefiles_list cfg.maxRetries ltr st.retries with _ | ⟨l, b, r⟩ | r | r | r
  · simp [fetch, hO]
  · rw [hO] at h2
    simp only [ListOutcome.retriesOut] at h2
    have hz := zoneLoop_retries cfg ztr l
      { st with retries := r,
                downloadable_zones := l.length,
                msgs := if b then st.msgs ++ [dupMsg] else st.msgs }
    simp only [fetch, hO]
    exact le_trans h2 hz
  · rw [hO] at h2
    simp only [ListOutcome.retriesOut] at h2
    simp [fetch, hO, h2]
  · rw [hO] at h2
    simp only [ListOutcome.retriesOut] at h2
    simp [fetch, hO, h2]
  · rw [hO] at h2
    simp only [ListOutcome.retriesOut] at h2
    simp [fetch, hO, h2]

/-- Counting failure messages distributes over append. -/
theorem failCountL_append (a b : List Msg) :
    failCountL (a ++ b) = failCountL a + failCountL b := by
  simp [failCountL, List.filter_append]

/-- Appending messages never lowers the failure count. -/
theorem failCountL_le_append (a l : List Msg) :
    failCountL a ≤ failCountL (a ++ l) := by
  rw [failCountL_append]; exact Nat.le_add_right _ _

/-- Appending one failure message increments the failure count by one. -/
theorem failCountL_snoc_true (a : List Msg) (m : Msg) (hm : m.fail = true) :
    failCountL (a ++ [m]) = failCountL a + 1 := by
  simp [failCountL, List.filter_append, hm]

/-- A continuing iteration of the per-zone loop never loses failure
messages. -/
theorem processZone_cont_failCount (cfg : Config) (tr : Nat → ZoneAnswer)
    (zone : String) (st st' : St)
    (h : processZone cfg tr zone st = StepResult.cont st') :
    failCount st ≤ failCount st' := by
  rcases hO : fetch_zone cfg.maxRetries tr st.retries with _ | ⟨resp, r⟩ | r | r | ⟨ct, r⟩
  · simp [processZone, hO] at h
  · cases hT : resp.truncatedAfter with
    | none =>
      simp [processZone, hO, hT] at h
      subst h
      exact le_refl _
    | some d =>
      simp [processZone, hO, hT] at h
  · simp [processZone, hO] at h
    subst h
    exact failCountL_le_append st.msgs _
  · simp [processZone, hO] at h
    subst h
    exact failCountL_le_append st.msgs _
  · simp [processZone, hO] at h
    subst h
    exact failCountL_le_append st.msgs _

/-- A fatal sys.exit(1) iteration of the per-zone loop has sent a failure
message. -/
theorem processZone_exit1_failCount (cfg : Config) (tr : Nat → ZoneAnswer)
    (zone : String) (st st' : St)
    (h : processZone cfg tr zone st = StepResult.fatal st' Termination.exit1) :
    failCount st < failCount st' := by
  rcases hO : fetch_zone cfg.maxRetries tr st.retries with _ | ⟨resp, r⟩ | r | r | ⟨ct, r⟩
  · simp [processZone, hO] at h
  · cases hT : resp.truncatedAfter with
    | none =>
      simp [processZone, hO, hT] at h
    | some d =>
      simp [processZone, hO, hT] at h
      subst h
      show failCountL st.msgs <
        failCountL (st.msgs ++ [writeFailMsg (zoneNameOf zone)])
      rw [failCountL_snoc_true st.msgs _ rfl]
      omega
  · simp [processZone, hO] at h
  · simp [processZone, hO] at h
  · simp [processZone, hO] at h

/-- If the per-zone loop ends in sys.exit(1) then a failure message was sent
during the loop. -/
theorem zoneLoop_exit1_failCount (cfg : Config)
    (ztr : String → Nat → ZoneAnswer) :
    ∀ (zs : List String) (st st' : St),
      zoneLoop cfg ztr zs st = (st', Termination.exit1) →
      failCount st < failCount st' := by
  intro zs
  induction zs with
  | nil => intro st st' h; simp [zoneLoop] at h
  | cons z rest ih =>
    intro st st' h
    simp only [zoneLoop] at h
    by_cases hsel : zoneSelected cfg.whichZones (zoneNameOf z) = true
    · rw [if_pos hsel] at h
      cases hQ : processZone cfg (ztr z) z st with
      | cont s1 =>
        rw [hQ] at h
        exact lt_of_le_of_lt (processZone_cont_failCount cfg (ztr z) z st s1 hQ)
          (ih s1 st' h)
      | fatal s1 t =>
        rw [hQ] at h
        rw [Prod.mk.injEq] at h
        obtain ⟨h1, h2⟩ := h
        subst h2
        exact h1 ▸ processZone_exit1_failCount cfg (ztr z) z st s1 hQ
    · rw [if_neg hsel] at h
      exact ih st st' h

/-- Claim C6: a successfully retrieved list response is deduplicated with set
semantics: get_zonefiles_list returns the deduplication of the parsed JSON
sequence of strings, which has no duplicates, the same underlying set as the
raw sequence, and one element per distinct entry of the raw sequence. -/
theorem C6_list_dedup (maxRetries r0 : Nat) (tr : Nat → ListAnswer)
    (l : List String) (hr : r0 ≤ maxRetries)
    (h0 : tr 0 = ListAnswer.resp 200 (ListBody.jsonList l)) :
    get_zonefiles_list maxRetries tr r0 =
      ListOutcome.ok l.dedup (l.dedup.length != l.length) r0 ∧
    l.dedup.Nodup ∧ l.dedup.toFinset = l.toFinset ∧
    l.dedup.length = l.toFinset.card := by
  have hfin : l.dedup.toFinset = l.toFinset := by
    ext a; simp [List.mem_toFinset, List.mem_dedup]
  refine ⟨?_, l.nodup_dedup, hfin, l.card_toFinset.symm⟩
  obtain ⟨k, hk⟩ : ∃ k, maxRetries + 1 - r0 = k + 1 :=
    ⟨maxRetries - r0, by omega⟩
  unfold get_zonefiles_list
  rw [hk]
  simp [listGo, hr, h0, getWithTokenList]

/-- Witness for C6 at the deduplication example of the specification: a list
response with a duplicate entry yields exactly the two distinct targets. -/
theorem C6_list_dedup_witness :
    get_zonefiles_list 1
        (fun _ => ListAnswer.resp 200 (ListBody.jsonList dedupExample)) 0 =
      ListOutcome.ok ["a/1", "b/2"] true 0 ∧
    (["a/1", "b/2"] : List String).length = 2 := by
  have h := C6_list_dedup 1 0
    (fun _ => ListAnswer.resp 200 (ListBody.jsonList dedupExample))
    dedupExample (by decide) rfl
  refine ⟨h.1.trans (by decide), by decide⟩

/-- Claim C7: a 200 response whose Content-Type differs from
application/x-gzip makes fetch_zone raise the unsupported-content-type
CZDSError, and the per-zone loop then continues without touching the file
system: nothing for that zone is written to disk. -/
theorem C7_content_type_reject (cfg : Config) (tr : Nat → ZoneAnswer)
    (headers : List (String × String)) (body : List Nat) (tA : Option Nat)
    (zone : String) (st : St) (ct : String)
    (h0 : tr 0 = ZoneAnswer.resp 200 ⟨headers, body, tA⟩)
    (hr : st.retries ≤ cfg.maxRetries)
    (hct : headerLookup headers "Content-Type" = some ct)
    (hne : ct ≠ "application/x-gzip") :
    fetch_zone cfg.maxRetries tr st.retries =
      ZoneOutcome.badContentType ct st.retries ∧
    processZone cfg tr zone st =
      StepResult.cont (errorStep st (badContentTypeMsg ct zone) st.retries) ∧
    (errorStep st (badContentTypeMsg ct zone) st.retries).fs = st.fs ∧
    (errorStep st (badContentTypeMsg ct zone) st.retries).writes = st.writes := by
  have hfz : fetch_zone cfg.maxRetries tr st.retries =
      ZoneOutcome.badContentType ct st.retries := by
    obtain ⟨k, hk⟩ : ∃ k, cfg.maxRetries + 1 - st.retries = k + 1 :=
      ⟨cfg.maxRetries - st.retries, by omega⟩
    unfold fetch_zone
    rw [hk]
    simp [fetchZoneGo, hr, h0, getWithTokenZone, hct, hne]
  exact ⟨hfz, by simp [processZone, hfz], rfl, rfl⟩

/-- Witness for C7: a 200 with Content-Type text/html is rejected and the
file system stays empty. -/
theorem C7_content_type_reject_witness :
    fetch_zone cfgC.maxRetries
        (fun _ => ZoneAnswer.resp 200 ⟨[("Content-Type", "text/html")], [7], none⟩)
        st0.retries =
      ZoneOutcome.badContentType "text/html" st0.retries ∧
    (errorStep st0 (badContentTypeMsg "text/html" "u/z") st0.retries).fs = st0.fs := by
  have h := C7_content_type_reject cfgC
    (fun _ => ZoneAnswer.resp 200 ⟨[("Content-Type", "text/html")], [7], none⟩)
    [("Content-Type", "text/html")] [7] none "u/z" st0 "text/html"
    rfl (by decide) (by decide) (by decide)
  exact ⟨h.1, h.2.2.1⟩

/-- Counterexample to claim C4: the retry discipline is not applied
independently per operation.  An always-throwing per-zone fetch entered after
earlier operations already consumed retries performs only
maxRetries - r0 retries, not maxRetries: with maxRetries = 1 and one retry
already consumed, the loop raises on the first attempt after zero further
retries. -/
theorem C4_counterexample : ¬ C4ClaimStatement := by
  intro h
  have hx := h 1 1 (fun _ => ZoneAnswer.exn) (by omega) (fun n => rfl)
  omega

/-- Claim C4 amended: against an always-throwing transport, both the list
fetch and a per-zone fetch raise the retries-exhausted error with the shared
counter at maxRetries; an invocation entered with the shared counter at r0
therefore performs exactly maxRetries - r0 retries, which equals maxRetries
only when no retries were consumed earlier in the run (r0 = 0).  The retry
budget is shared across the list fetch and all zone fetches, not independent
per zone. -/
theorem C4_retry_ceiling (maxRetries r0 : Nat) (ltr : Nat → ListAnswer)
    (ztr : Nat → ZoneAnswer) (hr : r0 ≤ maxRetries)
    (hl : ∀ n, ltr n = ListAnswer.exn) (hz : ∀ n, ztr n = ZoneAnswer.exn) :
    get_zonefiles_list maxRetries ltr r0 = ListOutcome.exhausted maxRetries ∧
    fetch_zone maxRetries ztr r0 = ZoneOutcome.exhausted maxRetries := by
  exact ⟨listGo_exn maxRetries ltr hl _ 0 r0 rfl hr,
         fetchZoneGo_exn maxRetries ztr hz _ 0 r0 rfl hr⟩

/-- Witness for the amended C4 on a fresh run: with the shared counter at 0
and a transport that always throws, both loops exhaust at counter value
maxRetries = 2, i.e. after exactly two retries. -/
theorem C4_retry_ceiling_witness :
    get_zonefiles_list 2 exnL 0 = ListOutcome.exhausted 2 ∧
    fetch_zone 2 exnZ 0 = ZoneOutcome.exhausted 2 := by
  exact C4_retry_ceiling 2 0 exnL exnZ (by omega) (fun n => rfl) (fun n => rfl)

/-- Claim C10: the retry counter is a shared run-level budget.  A zone fetch
entered with k retries already consumed anywhere in the run tolerates exactly
maxRetries - k further transport failures: if every attempt throws it raises
retries-exhausted at counter value maxRetries (after maxRetries - k further
retries), while a transport that throws maxRetries - k times and then
delivers a well-formed 200 still succeeds, with the counter left at
maxRetries.  Moreover no phase of a run ever lowers the counter. -/
theorem C10_shared_retry_budget (maxRetries k : Nat) (tr trG : Nat → ZoneAnswer)
    (resp : ZoneResp) (hk : k ≤ maxRetries)
    (hfail : ∀ n, tr n = ZoneAnswer.exn)
    (hG1 : ∀ n, n < maxRetries - k → trG n = ZoneAnswer.exn)
    (hG2 : trG (maxRetries - k) = ZoneAnswer.resp 200 resp)
    (hct : headerLookup resp.headers "Content-Type" = some "application/x-gzip") :
    fetch_zone maxRetries tr k = ZoneOutcome.exhausted maxRetries ∧
    fetch_zone maxRetries trG k = ZoneOutcome.ok resp maxRetries ∧
    (∀ (cfg : Config) (ltr : Nat → ListAnswer)
      (ztr : String → Nat → ZoneAnswer) (st : St),
      st.retries ≤ (fetch cfg ltr ztr st).1.retries) := by
  refine ⟨fetchZoneGo_exn maxRetries tr hfail _ 0 k rfl hk, ?_, fetch_retries⟩
  have h := fetchZoneGo_after maxRetries trG resp hct (maxRetries - k) 0 k
    (by omega) (fun n hn => by simpa using hG1 n (by omega)) (by simpa using hG2)
  have he : k + (maxRetries - k) = maxRetries := by omega
  rw [he] at h
  exact h

/-- Witness for C10 at maxRetries = 2 with one retry already consumed: the
always-throwing transport exhausts at counter 2 after one further retry, and
a transport that throws once and then succeeds still completes, leaving the
counter at 2. -/
theorem C10_shared_retry_budget_witness :
    fetch_zone 2 exnZ 1 = ZoneOutcome.exhausted 2 ∧
    fetch_zone 2 trW 1 = ZoneOutcome.ok respW 2 := by
  have h := C10_shared_retry_budget 2 1 exnZ trW respW (by omega)
    (fun n => rfl)
    (fun n hn => by
      have : n < 1 := by omega
      simp [trW, this])
    (by decide) (by decide)
  exact ⟨h.1, h.2.1⟩

/-- Counterexample to claim C1: there is no temporary path and no atomic
rename.  On a stream that terminates after two of four payload bytes, the run
exits fatally and a file exists AT THE FINAL path holding the two delivered
bytes, which differ from the payload the server would have sent. -/
theorem C1_counterexample :
    (fetch cfgA ltrA ztrA st0).2 = Termination.exit1 ∧
    fsGet (fetch cfgA ltrA ztrA st0).1.fs "out/z.gz" = some [1, 2] ∧
    ([1, 2] : List Nat) ≠ [1, 2, 3, 4] := by
  decide

/-- Claim C1 amended: the body is streamed in chunks directly to the final
path (no temporary path and no rename).  When the stream completes, the loop
continues and the final path holds exactly the payload; when the stream
terminates after d bytes, the per-chunk flush leaves exactly the first d
payload bytes at the final path and the run exits with status 1. -/
theorem C1_direct_write (cfg : Config) (tr : Nat → ZoneAnswer) (zone : String)
    (st : St) (resp : ZoneResp) (r : Nat)
    (h : fetch_zone cfg.maxRetries tr st.retries = ZoneOutcome.ok resp r) :
    (processZone cfg tr zone st).stateOf.fs =
      fsSet st.fs (outPath cfg (zoneNameOf zone))
        (match resp.truncatedAfter with
         | none => resp.body
         | some d => List.take d resp.body) ∧
    (resp.truncatedAfter = none →
      processZone cfg tr zone st =
        StepResult.cont ((processZone cfg tr zone st).stateOf) ∧
      fsGet (processZone cfg tr zone st).stateOf.fs
          (outPath cfg (zoneNameOf zone)) = some resp.body) ∧
    (∀ d, resp.truncatedAfter = some d →
      processZone cfg tr zone st =
        StepResult.fatal ((processZone cfg tr zone st).stateOf)
          Termination.exit1 ∧
      fsGet (processZone cfg tr zone st).stateOf.fs
          (outPath cfg (zoneNameOf zone)) = some (List.take d resp.body)) := by
  cases hT : resp.truncatedAfter with
  | none =>
    refine ⟨by simp [processZone, h, hT, StepResult.stateOf, writeStep],
      fun hn => ⟨by simp [processZone, h, hT, StepResult.stateOf],
                 by simp [processZone, h, hT, StepResult.stateOf, writeStep,
                   fsGet_fsSet]⟩,
      fun d hd => Option.noConfusion hd⟩
  | some d =>
    refine ⟨by simp [processZone, h, hT, StepResult.stateOf, writeFailStep],
      fun hn => Option.noConfusion hn,
      fun e he => ?_⟩
    injection he with hde
    subst hde
    exact ⟨by simp [processZone, h, hT, StepResult.stateOf],
           by simp [processZone, h, hT, StepResult.stateOf, writeFailStep,
             fsGet_fsSet]⟩

/-- Witness for the amended C1 at the truncated-stream scenario: the run
exits fatally and the final path holds the two delivered bytes. -/
theorem C1_direct_write_witness :
    processZone cfgA (ztrA "u/z") "u/z" st0 =
      StepResult.fatal ((processZone cfgA (ztrA "u/z") "u/z" st0).stateOf)
        Termination.exit1 ∧
    fsGet (processZone cfgA (ztrA "u/z") "u/z" st0).stateOf.fs
        (outPath cfgA (zoneNameOf "u/z")) = some (List.take 2 [1, 2, 3, 4]) := by
  exact (C1_direct_write cfgA (ztrA "u/z") "u/z" st0 respTrunc 0
    (by decide)).2.2 2 rfl

/-- Counterexample to claim C2: nothing checks whether the final target file
already exists.  After a first clean run has produced out/z.gz, a second run
of fetch over the same directory with an unchanged remote opens the file for
writing again: the write counter goes from 1 to 2, not zero additional
writes, and the run is a full re-fetch, not a skip. -/
theorem C2_counterexample :
    (fetch cfgB ltrB ztrB st0).1.writes = 1 ∧
    fsGet (fetch cfgB ltrB ztrB st0).1.fs "out/z.gz" = some [9] ∧
    (fetch cfgB ltrB ztrB (fetch cfgB ltrB ztrB st0).1).1.writes = 2 ∧
    (fetch cfgB ltrB ztrB (fetch cfgB ltrB ztrB st0).1).2 =
      Termination.normal := by
  decide

/-- Claim C2 amended: the downloader never consults the file system before
fetching.  Even when the final target file already exists with exactly the
remote payload, the zone is fetched and written again: the write counter
increments and the file is overwritten with the same bytes (the result is
byte-identical, so re-running is harmless for content, but it performs one
write per selected zone, not zero). -/
theorem C2_no_skip (cfg : Config) (tr : Nat → ZoneAnswer) (zone : String)
    (st : St) (resp : ZoneResp) (r : Nat)
    (h : fetch_zone cfg.maxRetries tr st.retries = ZoneOutcome.ok resp r)
    (ht : resp.truncatedAfter = none)
    (_hex : fsGet st.fs (outPath cfg (zoneNameOf zone)) = some resp.body) :
    ∃ st', processZone cfg tr zone st = StepResult.cont st' ∧
      st'.writes = st.writes + 1 ∧
      fsGet st'.fs (outPath cfg (zoneNameOf zone)) = some resp.body := by
  refine ⟨writeStep cfg st (zoneNameOf zone) resp.body r,
    by simp [processZone, h, ht], rfl, fsGet_fsSet _ _ _⟩

/-- Witness for the amended C2 at the re-run scenario: with out/z.gz already
present holding the payload, the second processing of the zone still opens
the file for writing. -/
theorem C2_no_skip_witness :
    ∃ st', processZone cfgB (ztrB "u/z") "u/z" (fetch cfgB ltrB ztrB st0).1 =
        StepResult.cont st' ∧
      st'.writes = (fetch cfgB ltrB ztrB st0).1.writes + 1 ∧
      fsGet st'.fs (outPath cfgB (zoneNameOf "u/z")) = some respOne.body := by
  exact C2_no_skip cfgB (ztrB "u/z") "u/z" (fetch cfgB ltrB ztrB st0).1
    respOne 0 (by decide) rfl (by decide)

/-- Claim C5: a fetch_zone failure (retries exhausted, missing content type,
or unsupported content type, i.e. any CZDSError) does not abort the run: the
per-zone loop catches it, appends the log line of the handler, leaves the
file system and write counter untouched, and proceeds with the remaining
targets exactly as if the zone had been absent. -/
theorem C5_per_zone_errors_caught (cfg : Config)
    (ztr : String → Nat → ZoneAnswer) (zone : String) (rest : List String)
    (st : St)
    (hsel : zoneSelected cfg.whichZones (zoneNameOf zone) = true)
    (herr : (fetch_zone cfg.maxRetries (ztr zone) st.retries).isFetchError = true) :
    ∃ st', processZone cfg (ztr zone) zone st = StepResult.cont st' ∧
      st'.fs = st.fs ∧ st'.writes = st.writes ∧
      st'.logs = st.logs ++ ["Failed to download zone"] ∧
      zoneLoop cfg ztr (zone :: rest) st = zoneLoop cfg ztr rest st' := by
  rcases hO : fetch_zone cfg.maxRetries (ztr zone) st.retries
    with _ | ⟨resp, r⟩ | r | r | ⟨ct, r⟩
  · rw [hO] at herr; simp [ZoneOutcome.isFetchError] at herr
  · rw [hO] at herr; simp [ZoneOutcome.isFetchError] at herr
  · refine ⟨errorStep st (maxRetriesMsg (zoneNameOf zone)) r,
      by simp [processZone, hO], rfl, rfl, rfl, ?_⟩
    simp [zoneLoop, hsel, processZone, hO]
  · refine ⟨errorStep st (noContentTypeMsg zone) r,
      by simp [processZone, hO], rfl, rfl, rfl, ?_⟩
    simp [zoneLoop, hsel, processZone, hO]
  · refine ⟨errorStep st (badContentTypeMsg ct zone) r,
      by simp [processZone, hO], rfl, rfl, rfl, ?_⟩
    simp [zoneLoop, hsel, processZone, hO]

/-- Witness for C5: a zone whose transport always throws is tallied and the
loop moves on to the remaining target. -/
theorem C5_per_zone_errors_caught_witness :
    ∃ st', processZone cfgA (fun _ => ZoneAnswer.exn) "u/z" st0 =
        StepResult.cont st' ∧
      st'.fs = st0.fs ∧ st'.writes = st0.writes ∧
      st'.logs = st0.logs ++ ["Failed to download zone"] ∧
      zoneLoop cfgA (fun _ _ => ZoneAnswer.exn) ("u/z" :: ["u/w"]) st0 =
        zoneLoop cfgA (fun _ _ => ZoneAnswer.exn) ["u/w"] st' := by
  exact C5_per_zone_errors_caught cfgA (fun _ _ => ZoneAnswer.exn) "u/z"
    ["u/w"] st0 (by decide) (by decide)

/-- Claim C3, evaluated at a failing input: a run whose list reports two
zones and whose two downloads both complete.  Both files are written (two
write events, both payloads on disk), yet the summary line reports
"Downloaded 0 zonefiles of 2." because downloaded_zones is initialised to
zero and never incremented anywhere in the source, contradicting the summary
text of the source itself (it purports to report how many zone files were
downloaded). -/
theorem C3_downloaded_count_never_incremented :
    (fetch cfgB ltrE ztrE st0).2 = Termination.normal ∧
    fsGet (fetch cfgB ltrE ztrE st0).1.fs "out/z1.gz" = some [1] ∧
    fsGet (fetch cfgB ltrE ztrE st0).1.fs "out/z2.gz" = some [2] ∧
    (fetch cfgB ltrE ztrE st0).1.writes = 2 ∧
    (fetch cfgB ltrE ztrE st0).1.downloadable_zones = 2 ∧
    (fetch cfgB ltrE ztrE st0).1.downloaded_zones = 0 ∧
    mainSummary (fetch cfgB ltrE ztrE st0).1 = "Downloaded 0 zonefiles of 2." := by
  decide

/-- Counterexample to claim C8: no ZoneMetadata is parsed from the headers.
A 200 whose content disposition does not match the documented filename
pattern and which carries no Content-Length at all is accepted by fetch_zone
and proceeds to a write, instead of failing with a header-parse error. -/
theorem C8_counterexample :
    fetch_zone cfgC.maxRetries trC st0.retries = ZoneOutcome.ok respC 0 ∧
    fsGet (processZone cfgC trC "u/z" st0).stateOf.fs "out/z.gz" = some [7] := by
  decide

/-- Claim C8 amended: the only header validation fetch_zone performs is on
Content-Type: for a 200 response the outcome is determined entirely by that
header key (absent: the missing-content-type CZDSError; equal to
application/x-gzip: success; anything else: the unsupported-content-type
CZDSError).  The content-disposition filename is never examined, no
ZoneMetadata is parsed, and Content-Length is not required to be present or
numeric (fetch only logs it when present). -/
theorem C8_only_content_type_checked (maxRetries r0 : Nat)
    (tr : Nat → ZoneAnswer) (headers : List (String × String))
    (body : List Nat) (tA : Option Nat)
    (h0 : tr 0 = ZoneAnswer.resp 200 ⟨headers, body, tA⟩)
    (hr : r0 ≤ maxRetries) :
    fetch_zone maxRetries tr r0 =
      (match headerLookup headers "Content-Type" with
       | none => ZoneOutcome.noContentType r0
       | some ct =>
         if ct = "application/x-gzip" then ZoneOutcome.ok ⟨headers, body, tA⟩ r0
         else ZoneOutcome.badContentType ct r0) := by
  obtain ⟨k, hk⟩ : ∃ k, maxRetries + 1 - r0 = k + 1 :=
    ⟨maxRetries - r0, by omega⟩
  unfold fetch_zone
  rw [hk]
  simp only [fetchZoneGo, if_pos hr, h0, getWithTokenZone]
  rfl

/-- Witness for the amended C8: a response carrying only a malformed content
disposition and no Content-Length is accepted because its Content-Type is the
expected one. -/
theorem C8_only_content_type_checked_witness :
    fetch_zone cfgC.maxRetries trC 0 =
      (match headerLookup hdrsC "Content-Type" with
       | none => ZoneOutcome.noContentType 0
       | some ct =>
         if ct = "application/x-gzip" then ZoneOutcome.ok ⟨hdrsC, [7], none⟩ 0
         else ZoneOutcome.badContentType ct 0) := by
  exact C8_only_content_type_checked cfgC.maxRetries 0 trC hdrsC [7] none
    rfl (by decide)

/-- Counterexample to claim C9: a 200 list response whose body is not valid
JSON makes response.json() raise a decode error that no handler catches
(the surrounding try catches only GetError and the caller catches only
CZDSError), so the run terminates with an unhandled exception and the
message list is still empty: no human-readable failure notification was
produced before this fatal exit. -/
theorem C9_counterexample :
    fetch cfgB ltrD ztrD st0 = (st0, Termination.uncaught) ∧
    st0.msgs = [] := by
  decide

/-- Claim C9 amended: on the sys.exit(1) exits of authentication (every
failing branch) and of fetch (list retries exhausted, non-iterable list
JSON, zone write failure) a failure message is always sent before the exit;
but two fatal paths terminate with no notification at all: the JSON decode
error on a malformed list body escapes every handler, and a configuration
load failure makes send_msg itself raise TypeError from get_config_item on
the still-unloaded configuration, before any stderr write or sys.exit(1). -/
theorem C9_notify_on_exit1 (a : AuthAnswer) (cfg : Config)
    (ltr : Nat → ListAnswer) (ztr : String → Nat → ZoneAnswer) (st : St) :
    ((czds_authenticate a st).2.2 = Termination.exit1 →
      failCount st < failCount (czds_authenticate a st).2.1) ∧
    ((fetch cfg ltr ztr st).2 = Termination.exit1 →
      failCount st < failCount (fetch cfg ltr ztr st).1) ∧
    load_config_failure st = (st, Termination.uncaught) := by
  refine ⟨?_, ?_, rfl⟩
  · intro _
    cases a with
    | exn =>
      show failCountL st.msgs < failCountL (st.msgs ++ [authFailMsg])
      rw [failCountL_snoc_true st.msgs _ rfl]; omega
    | resp status body =>
      by_cases h200 : status = 200
      · subst h200
        cases body with
        | some tok =>
          rename_i hx
          simp [czds_authenticate] at hx
        | none =>
          show failCountL st.msgs < failCountL (st.msgs ++ [authFailMsg])
          rw [failCountL_snoc_true st.msgs _ rfl]; omega
      · by_cases h404 : status = 404
        · subst h404
          show failCountL st.msgs < failCountL (st.msgs ++ [auth404Msg])
          rw [failCountL_snoc_true st.msgs _ rfl]; omega
        · by_cases h401 : status = 401
          · subst h401
            show failCountL st.msgs < failCountL (st.msgs ++ [auth401Msg])
            rw [failCountL_snoc_true st.msgs _ rfl]; omega
          · by_cases h500 : status = 500
            · subst h500
              show failCountL st.msgs < failCountL (st.msgs ++ [auth500Msg])
              rw [failCountL_snoc_true st.msgs _ rfl]; omega
            · simp only [czds_authenticate, if_neg h200, if_neg h404, if_neg h401,
                if_neg h500]
              show failCountL st.msgs < failCountL (st.msgs ++ [authOtherMsg status])
              rw [failCountL_snoc_true st.msgs _ rfl]; omega
  · intro hx
    rcases hO : get_zonefiles_list cfg.maxRetries ltr st.retries
      with _ | ⟨l, b, r⟩ | r | r | r
    · rw [fetch] at hx
      rw [hO] at hx
      cases hx
    · rw [fetch] at hx ⊢
      rw [hO] at hx ⊢
      have h1 : failCount st ≤ failCountL
          (if b then st.msgs ++ [dupMsg] else st.msgs) := by
        cases b with
        | true => simpa using failCountL_le_append st.msgs [dupMsg]
        | false => exact le_refl _
      set st1 : St :=
        { st with retries := r,
                  downloadable_zones := l.length,
                  msgs := if b then st.msgs ++ [dupMsg] else st.msgs } with hst1
      have hE : zoneLoop cfg ztr l st1 =
          ((zoneLoop cfg ztr l st1).1, Termination.exit1) := by
        rw [← hx]
      exact lt_of_le_of_lt h1
        (zoneLoop_exit1_failCount cfg ztr l st1 (zoneLoop cfg ztr l st1).1 hE)
    · rw [fetch] at hx ⊢
      rw [hO] at hx ⊢
      show failCountL st.msgs < failCountL (st.msgs ++ [listFailMsg])
      rw [failCountL_snoc_true st.msgs _ rfl]; omega
    · rw [fetch] at hx ⊢
      rw [hO] at hx ⊢
      show failCountL st.msgs < failCountL (st.msgs ++ [listFailMsg])
      rw [failCountL_snoc_true st.msgs _ rfl]; omega
    · rw [fetch] at hx
      rw [hO] at hx
      cases hx

/-- Witness for the amended C9: a failed authentication POST sends a failure
message before exiting. -/
theorem C9_notify_on_exit1_witness :
    failCount st0 < failCount (czds_authenticate AuthAnswer.exn st0).2.1 := by
  exact (C9_notify_on_exit1 AuthAnswer.exn cfgB ltrB ztrB st0).1 (by decide)

end CZDS
